import Mathlib

/-!
Verification of the TypeDB HTTP driver (`app/lambda/typedb_http_driver.py`).

The driver is shallowly embedded: driver methods become Lean functions that
thread an explicit state (`St`) holding the cached token, the remaining
network script (a list of outcomes the network will produce, consumed in the
order HTTP attempts are made), and a trace of the HTTP requests issued so
far.  Exceptions become `Except PyError`; raising mid-way still returns the
mutated state, matching Python semantics where a raised exception does not
roll back attribute mutations.
-/

/-- JSON values, the payload language of the driver (Python dict/list/str/int/bool/None). -/
inductive Json where
  | null : Json
  | bool (b : Bool) : Json
  | num (n : Int) : Json
  | str (s : String) : Json
  | arr (xs : List Json) : Json
  | obj (fs : List (String × Json)) : Json

/-- A decoded JSON object body, as Python `Dict[str, Any]`. -/
abbrev Dict := List (String × Json)

/-- `d.get(k)` on a Python dict: the value at the first matching key, if any. -/
def dictGet (d : Dict) (k : String) : Option Json :=
  match d.find? (fun e => e.1 = k) with
  | some e => some e.2
  | none => none

/-- `d.get(k, default)` on a Python dict. -/
def dictGetD (d : Dict) (k : String) (v : Json) : Json :=
  (dictGet d k).getD v

/-- Python truthiness of a JSON value (`if not x` tests). -/
def jsonTruthy : Json → Bool
  | .null => false
  | .bool b => b
  | .num n => n != 0
  | .str s => s ≠ ""
  | .arr xs => !xs.isEmpty
  | .obj fs => !fs.isEmpty

/-- Python `str()` rendering of a JSON value, used in f-string interpolation.
Strings render as themselves; containers get a simple bracketed rendering. -/
def pyStr : Json → String
  | .null => "None"
  | .bool true => "True"
  | .bool false => "False"
  | .num n => toString n
  | .str s => s
  | .arr xs => "[" ++ String.intercalate ", " (xs.attach.map (fun e => pyStr e.1)) ++ "]"
  | .obj fs => "\x7b" ++ String.intercalate ", " (fs.attach.map (fun e => e.1.1 ++ ": " ++ pyStr e.1.2)) ++ "\x7d"
decreasing_by
  all_goals simp_wf
  · have h1 : sizeOf e.1 < sizeOf xs := List.sizeOf_lt_of_mem e.2
    omega
  · have h1 : sizeOf e.1 < sizeOf fs := List.sizeOf_lt_of_mem e.2
    have h2 : sizeOf e.1.2 < sizeOf e.1 := by
      obtain ⟨⟨a, b⟩, hm⟩ := e
      simp
    omega

/-- `TypeDBHttpError(message, code, status_code)` from the driver module.
The message and server-supplied code are JSON values because Python attaches
whatever the error body contained, without a type check. -/
structure TypeDBHttpError where
  message : Json
  code : Option Json := none
  status_code : Option Nat := none

/-- A raised Python exception: either the driver error type, or a `KeyError`
from a missing dictionary key (`data` subscripting in the driver). -/
inductive PyError where
  | typedb (e : TypeDBHttpError)
  | keyError (k : String)

/-- An HTTP response: status code, and the decoded JSON object body
(`none` models an empty `response.content`). -/
structure HttpResponse where
  status_code : Nat
  body : Option Dict

/-- One outcome the network produces for one HTTP attempt on the wire:
either a connection-level failure or a response. -/
inductive NetOutcome where
  | conn_error (msg : String) : NetOutcome
  | response (r : HttpResponse) : NetOutcome

/-- A logical HTTP request issued by the driver (one `session.request` /
`session.post` call), as recorded in the trace: method, path, JSON body,
query parameters, and the bearer token carried in the headers. -/
structure SentRequest where
  method : String
  path : String
  data : Option Dict
  params : Option Dict
  token : Json

/-- Trace entries: sign-in exchanges and authenticated requests, in wire order. -/
inductive TraceEntry where
  | signin (username password : String) : TraceEntry
  | request (r : SentRequest) : TraceEntry

/-- Driver-visible mutable state: the cached token (`self.token`), the
remaining network script, and the trace of issued requests. -/
structure St where
  token : Option Json
  script : List NetOutcome
  trace : List TraceEntry

/-- `status_forcelist=[429, 500, 502, 503, 504]` from the driver constructor. -/
def retryForcelist : List Nat := [429, 500, 502, 503, 504]

/-- urllib3 `Retry.DEFAULT_ALLOWED_METHODS`: the methods status-based retry
applies to.  The driver leaves this at its default, so POST is not included. -/
def defaultAllowedMethods : List String :=
  ["HEAD", "GET", "PUT", "DELETE", "OPTIONS", "TRACE"]

/-- urllib3 `Retry.is_retry` for the driver's configuration: a response
status triggers a retry only if it is in the forcelist and the method is in
the default allowlist. -/
def isRetryStatus (method : String) (status : Nat) : Bool :=
  decide (status ∈ retryForcelist) && decide (method ∈ defaultAllowedMethods)

/-- One `session.request` call through the mounted `HTTPAdapter` with
`Retry(total=2, backoff_factor=0.5, status_forcelist=[429,500,502,503,504])`:
consumes outcomes from the script until a non-retryable response arrives or
the retry budget (number of remaining retries) is exhausted.  Connection
errors are retried for every method; forcelist statuses only for methods in
the default allowlist.  Returns the result and the unconsumed script. -/
def sessionSend (method : String) : Nat → List NetOutcome →
    Except String HttpResponse × List NetOutcome
  | _, [] => (.error "connection refused", [])
  | budget, .conn_error m :: rest =>
    match budget with
    | 0 => (.error m, rest)
    | b + 1 => sessionSend method b rest
  | budget, .response r :: rest =>
    if isRetryStatus method r.status_code then
      match budget with
      | 0 => (.error "too many retries", rest)
      | b + 1 => sessionSend method b rest
    else (.ok r, rest)

/-- urllib3 `Retry.get_backoff_time` with `backoff_factor=0.5` and
`BACKOFF_MAX=120`, as a function of the number of consecutive errors so far:
no sleep before the first retry, then `0.5 * 2 ^ (n - 1)` seconds. -/
def get_backoff_time (consecutive_errors : Nat) : ℚ :=
  if consecutive_errors ≤ 1 then 0
  else min 120 ((1 / 2) * 2 ^ (consecutive_errors - 1))

/-- `TypeDBHttpDriver._refresh_token`: POST `/v1/signin` with the stored
credentials (through the same retrying session adapter), `raise_for_status`,
then cache and return `data["token"]`.  Any `RequestException` (connection
failure, retry exhaustion, or a non-2xx status) is re-raised as
`TypeDBHttpError("Failed to authenticate: ...")`; in that case `self.token`
is never assigned. -/
def refresh_token (username password : String) (st : St) : Except PyError Json × St :=
  match sessionSend "POST" 2 st.script with
  | (.error m, rest) =>
    (.error (.typedb ⟨.str ("Failed to authenticate: " ++ m), none, none⟩),
     { st with script := rest })
  | (.ok resp, rest) =>
    let st1 : St := { st with script := rest,
                              trace := st.trace ++ [.signin username password] }
    if 400 ≤ resp.status_code then
      (.error (.typedb ⟨.str ("Failed to authenticate: HTTP " ++
          toString resp.status_code ++ " error"), none, none⟩), st1)
    else
      match resp.body with
      | none =>
        (.error (.typedb ⟨.str "Failed to authenticate: invalid JSON", none, none⟩), st1)
      | some d =>
        match dictGet d "token" with
        | none => (.error (.keyError "token"), st1)
        | some t => (.ok t, { st1 with token := some t })

/-- `TypeDBHttpDriver._get_token`: return the cached token if present
(`if self.token:` — a Python truthiness test), otherwise refresh. -/
def get_token (username password : String) (st : St) : Except PyError Json × St :=
  match st.token with
  | some t =>
    if jsonTruthy t then (.ok t, st)
    else refresh_token username password st
  | none => refresh_token username password st

/-- `TypeDBHttpDriver._make_request`: build the Authorization header from
`_get_token()`, issue the request through the retrying session; on a 401
response clear the cached token, re-fetch a token, and replay the identical
request once, returning whatever the replay produced.  A `RequestException`
from the session becomes `TypeDBHttpError("HTTP request failed: ...")`. -/
def make_request (username password : String) (method path : String)
    (data : Option Dict) (params : Option Dict) (st : St) :
    Except PyError HttpResponse × St :=
  match get_token username password st with
  | (.error e, st1) => (.error e, st1)
  | (.ok tok, st1) =>
    match sessionSend method 2 st1.script with
    | (.error m, rest) =>
      (.error (.typedb ⟨.str ("HTTP request failed: " ++ m), none, none⟩),
       { st1 with script := rest })
    | (.ok resp, rest) =>
      let st2 : St :=
        { st1 with script := rest,
                   trace := st1.trace ++ [.request ⟨method, path, data, params, tok⟩] }
      if resp.status_code = 401 then
        let st3 : St := { st2 with token := none }
        match get_token username password st3 with
        | (.error e, st4) => (.error e, st4)
        | (.ok tok2, st4) =>
          match sessionSend method 2 st4.script with
          | (.error m, rest2) =>
            (.error (.typedb ⟨.str ("HTTP request failed: " ++ m), none, none⟩),
             { st4 with script := rest2 })
          | (.ok resp2, rest2) =>
            (.ok resp2,
             { st4 with script := rest2,
                        trace := st4.trace ++ [.request ⟨method, path, data, params, tok2⟩] })
      else (.ok resp, st2)

/-- `TypeDBHttpDriver._handle_response`: a status of 400 or more raises
`TypeDBHttpError` with the message and code taken from the `{message, code?}`
error body (falling back to `HTTP <status>` when the body is empty or has no
message) and the original status code attached; otherwise an empty body
yields the empty object and a non-empty body yields its decoded JSON. -/
def handle_response (resp : HttpResponse) : Except PyError Dict :=
  if 400 ≤ resp.status_code then
    let error_data : Dict := resp.body.getD []
    .error (.typedb
      ⟨dictGetD error_data "message" (.str ("HTTP " ++ toString resp.status_code)),
       dictGet error_data "code",
       some resp.status_code⟩)
  else
    match resp.body with
    | none => .ok []
    | some d => .ok d

/-- `TransactionOptions` dataclass. -/
structure TransactionOptions where
  schema_lock_acquire_timeout_millis : Option Int := none
  transaction_timeout_millis : Option Int := none

/-- `QueryOptions` dataclass. -/
structure QueryOptions where
  include_instance_types : Option Bool := none
  answer_count_limit : Option Int := none

/-- The `transactionOptions` wire object built by the driver: absent fields
are omitted, not sent as nulls. -/
def transactionOptionsDict (o : TransactionOptions) : Dict :=
  (match o.schema_lock_acquire_timeout_millis with
   | some v => [("schemaLockAcquireTimeoutMillis", Json.num v)]
   | none => []) ++
  (match o.transaction_timeout_millis with
   | some v => [("transactionTimeoutMillis", Json.num v)]
   | none => [])

/-- The `queryOptions` wire object built by the driver: absent fields are
omitted, not sent as nulls. -/
def queryOptionsDict (o : QueryOptions) : Dict :=
  (match o.include_instance_types with
   | some v => [("includeInstanceTypes", Json.bool v)]
   | none => []) ++
  (match o.answer_count_limit with
   | some v => [("answerCountLimit", Json.num v)]
   | none => [])

/-- The payload built by `TypeDBHttpDriver.open_transaction`. -/
def openTransactionPayload (database_name transaction_type : String)
    (options : Option TransactionOptions) : Dict :=
  [("databaseName", Json.str database_name),
   ("transactionType", Json.str transaction_type)] ++
  (match options with
   | some o => [("transactionOptions", Json.obj (transactionOptionsDict o))]
   | none => [])

/-- `TypeDBHttpDriver.open_transaction`: POST `/v1/transactions/open`, handle
the response, and return `data["transactionId"]`. -/
def open_transaction (username password : String) (database_name transaction_type : String)
    (options : Option TransactionOptions) (st : St) : Except PyError Json × St :=
  match make_request username password "POST" "/v1/transactions/open"
      (some (openTransactionPayload database_name transaction_type options)) none st with
  | (.error e, st1) => (.error e, st1)
  | (.ok resp, st1) =>
    match handle_response resp with
    | .error e => (.error e, st1)
    | .ok data =>
      match dictGet data "transactionId" with
      | none => (.error (.keyError "transactionId"), st1)
      | some v => (.ok v, st1)

/-- `TypeDBHttpDriver.commit_transaction`: POST
`/v1/transactions/<id>/commit` with an empty object body. -/
def commit_transaction (username password : String) (transaction_id : String)
    (st : St) : Except PyError Unit × St :=
  match make_request username password "POST"
      ("/v1/transactions/" ++ transaction_id ++ "/commit") (some []) none st with
  | (.error e, st1) => (.error e, st1)
  | (.ok resp, st1) =>
    match handle_response resp with
    | .error e => (.error e, st1)
    | .ok _ => (.ok (), st1)

/-- `TypeDBHttpDriver.close_transaction`: POST `/v1/transactions/<id>/close`
with an empty object body. -/
def close_transaction (username password : String) (transaction_id : String)
    (st : St) : Except PyError Unit × St :=
  match make_request username password "POST"
      ("/v1/transactions/" ++ transaction_id ++ "/close") (some []) none st with
  | (.error e, st1) => (.error e, st1)
  | (.ok resp, st1) =>
    match handle_response resp with
    | .error e => (.error e, st1)
    | .ok _ => (.ok (), st1)

/-- `TypeDBHttpDriver.rollback_transaction`: POST
`/v1/transactions/<id>/rollback` with an empty object body. -/
def rollback_transaction (username password : String) (transaction_id : String)
    (st : St) : Except PyError Unit × St :=
  match make_request username password "POST"
      ("/v1/transactions/" ++ transaction_id ++ "/rollback") (some []) none st with
  | (.error e, st1) => (.error e, st1)
  | (.ok resp, st1) =>
    match handle_response resp with
    | .error e => (.error e, st1)
    | .ok _ => (.ok (), st1)

/-- The payload built by `TypeDBHttpDriver.query`. -/
def queryPayload (q : String) (options : Option QueryOptions) : Dict :=
  [("query", Json.str q)] ++
  (match options with
   | some o => [("queryOptions", Json.obj (queryOptionsDict o))]
   | none => [])

/-- `TypeDBHttpDriver.query`: POST `/v1/transactions/<id>/query` and return
the handled response body. -/
def driverQuery (username password : String) (transaction_id : String) (q : String)
    (options : Option QueryOptions) (st : St) : Except PyError Dict × St :=
  match make_request username password "POST"
      ("/v1/transactions/" ++ transaction_id ++ "/query")
      (some (queryPayload q options)) none st with
  | (.error e, st1) => (.error e, st1)
  | (.ok resp, st1) =>
    match handle_response resp with
    | .error e => (.error e, st1)
    | .ok data => (.ok data, st1)

/-- The payload built by `TypeDBHttpDriver.one_shot_query`: query, commit
flag, database name and transaction type, plus the option objects when (and
only when) they were supplied. -/
def oneShotPayload (q : String) (commit : Bool) (database_name transaction_type : String)
    (transaction_options : Option TransactionOptions)
    (query_options : Option QueryOptions) : Dict :=
  [("query", Json.str q),
   ("commit", Json.bool commit),
   ("databaseName", Json.str database_name),
   ("transactionType", Json.str transaction_type)] ++
  (match transaction_options with
   | some o => [("transactionOptions", Json.obj (transactionOptionsDict o))]
   | none => []) ++
  (match query_options with
   | some o => [("queryOptions", Json.obj (queryOptionsDict o))]
   | none => [])

/-- `TypeDBHttpDriver.one_shot_query`: a single POST to `/v1/query` carrying
the one-shot payload, whose handled response body is returned. -/
def one_shot_query (username password : String) (q : String) (commit : Bool)
    (database_name transaction_type : String)
    (transaction_options : Option TransactionOptions)
    (query_options : Option QueryOptions) (st : St) : Except PyError Dict × St :=
  match make_request username password "POST" "/v1/query"
      (some (oneShotPayload q commit database_name transaction_type
               transaction_options query_options)) none st with
  | (.error e, st1) => (.error e, st1)
  | (.ok resp, st1) =>
    match handle_response resp with
    | .error e => (.error e, st1)
    | .ok data => (.ok data, st1)

/-- The `Transaction` context-manager class: target database, kind, options,
and the server-assigned transaction id (`None` until `__enter__` runs). -/
structure Transaction where
  database_name : String
  transaction_type : String
  options : Option TransactionOptions
  transaction_id : Option Json

/-- Python truthiness of `self.transaction_id` (`if not self.transaction_id`). -/
def Transaction.idTruthy (tx : Transaction) : Bool :=
  match tx.transaction_id with
  | none => false
  | some v => jsonTruthy v

/-- `Transaction.__enter__`: open the transaction and store its id. -/
def Transaction.enter (username password : String) (tx : Transaction) (st : St) :
    Except PyError Transaction × St :=
  match open_transaction username password tx.database_name tx.transaction_type
      tx.options st with
  | (.error e, st1) => (.error e, st1)
  | (.ok tid, st1) => (.ok { tx with transaction_id := some tid }, st1)

/-- `Transaction.__exit__`: close the transaction if its id is set (truthy). -/
def Transaction.exitScope (username password : String) (tx : Transaction) (st : St) :
    Except PyError Unit × St :=
  match tx.transaction_id with
  | none => (.ok (), st)
  | some tid =>
    if jsonTruthy tid then
      close_transaction username password (pyStr tid) st
    else (.ok (), st)

/-- `Transaction.query` (the client half): raise `Transaction not open` when the
stored id is unset or falsy, otherwise POST the query and wrap the result. -/
def Transaction.runQuery (username password : String) (tx : Transaction) (q : String)
    (options : Option QueryOptions) (st : St) : Except PyError Dict × St :=
  if !tx.idTruthy then
    (.error (.typedb ⟨.str "Transaction not open", none, none⟩), st)
  else
    driverQuery username password (pyStr ((tx.transaction_id).getD .null)) q options st

/-- `Transaction.commit`: raise `Transaction not open` when the stored id is
unset or falsy, otherwise commit through the driver. -/
def Transaction.commit (username password : String) (tx : Transaction) (st : St) :
    Except PyError Unit × St :=
  if !tx.idTruthy then
    (.error (.typedb ⟨.str "Transaction not open", none, none⟩), st)
  else
    commit_transaction username password (pyStr ((tx.transaction_id).getD .null)) st

/-- `Transaction.rollback`: raise `Transaction not open` when the stored id is
unset or falsy, otherwise roll back through the driver. -/
def Transaction.rollback (username password : String) (tx : Transaction) (st : St) :
    Except PyError Unit × St :=
  if !tx.idTruthy then
    (.error (.typedb ⟨.str "Transaction not open", none, none⟩), st)
  else
    rollback_transaction username password (pyStr ((tx.transaction_id).getD .null)) st

/-- The `with Transaction(driver, db, kind, opts) as tx: body` statement:
`__enter__` opens the transaction (if it raises, `__exit__` does not run);
then on every exit path of `body` — normal result or raised exception —
`__exit__` runs; an exception raised by `__exit__` itself takes precedence. -/
def withTransaction {α : Type} (username password : String)
    (database_name transaction_type : String) (options : Option TransactionOptions)
    (body : Transaction → St → Except PyError α × St) (st : St) :
    Except PyError α × St :=
  let tx0 : Transaction := ⟨database_name, transaction_type, options, none⟩
  match Transaction.enter username password tx0 st with
  | (.error e, st1) => (.error e, st1)
  | (.ok tx, st1) =>
    match body tx st1 with
    | (.ok a, st2) =>
      match Transaction.exitScope username password tx st2 with
      | (.ok _, st3) => (.ok a, st3)
      | (.error e, st3) => (.error e, st3)
    | (.error e, st2) =>
      match Transaction.exitScope username password tx st2 with
      | (.ok _, st3) => (.error e, st3)
      | (.error e2, st3) => (.error e2, st3)

/-- The `QueryResult` wrapper: raw response plus the fields extracted by
`__init__` with their Python `dict.get` defaults. -/
structure QueryResult where
  response : Dict
  answer_type : Json
  query_type : Json
  comment : Option Json
  query : Option Json
  answers : Json

/-- `QueryResult.__init__`: `answerType` defaults to `"ok"`, `queryType` to
`"read"`, `answers` to the empty list; `comment` and `query` to `None`. -/
def QueryResult.ofResponse (d : Dict) : QueryResult :=
  ⟨d,
   dictGetD d "answerType" (.str "ok"),
   dictGetD d "queryType" (.str "read"),
   dictGet d "comment",
   dictGet d "query",
   dictGetD d "answers" (.arr [])⟩

/-- Python `x == "lit"` for a JSON value: true exactly on the equal string. -/
def jsonIsStr (j : Json) (s : String) : Bool :=
  match j with
  | .str t => t = s
  | _ => false

/-- `QueryResult.as_concept_documents`: the answers when the tag is
`conceptDocuments`, otherwise a raised `TypeDBHttpError`. -/
def QueryResult.as_concept_documents (q : QueryResult) : Except PyError Json :=
  if !jsonIsStr q.answer_type "conceptDocuments" then
    .error (.typedb ⟨.str ("Cannot get concept documents from " ++
        pyStr q.answer_type ++ " response"), none, none⟩)
  else .ok q.answers

/-- `QueryResult.as_concept_rows`: the answers when the tag is `conceptRows`,
otherwise a raised `TypeDBHttpError`. -/
def QueryResult.as_concept_rows (q : QueryResult) : Except PyError Json :=
  if !jsonIsStr q.answer_type "conceptRows" then
    .error (.typedb ⟨.str ("Cannot get concept rows from " ++
        pyStr q.answer_type ++ " response"), none, none⟩)
  else .ok q.answers

/-- Modelled from the spec: the server-side transaction states of the
state machine in the design (`UNOPENED` is the client-side pre-open state;
the server tracks the rest). -/
inductive TxState where
  | OPEN : TxState
  | COMMITTED : TxState
  | ROLLED_BACK : TxState
  | CLOSED : TxState

/-- Modelled from the spec: the `{message, code?}` error body the server
returns for an operation attempted on a committed, rolled-back or closed
transaction (a Transaction-State failure). -/
def txStateFailureBody : Dict :=
  [("message", Json.str "Transaction-State failure"),
   ("code", Json.str "TXN_STATE")]

/-- Modelled from the spec: the server handling of POST
`/v1/transactions/<id>/commit` — `OPEN` moves to `COMMITTED` with a success
response; any other state is unchanged and answers a Transaction-State
failure with a non-2xx status. -/
def serverCommitRespond : TxState → TxState × HttpResponse
  | .OPEN => (.COMMITTED, ⟨200, none⟩)
  | .COMMITTED => (.COMMITTED, ⟨400, some txStateFailureBody⟩)
  | .ROLLED_BACK => (.ROLLED_BACK, ⟨400, some txStateFailureBody⟩)
  | .CLOSED => (.CLOSED, ⟨400, some txStateFailureBody⟩)

/-- Modelled from the spec: the server handling of POST
`/v1/transactions/<id>/rollback` — `OPEN` moves to `ROLLED_BACK`; any other
state is unchanged and answers a Transaction-State failure. -/
def serverRollbackRespond : TxState → TxState × HttpResponse
  | .OPEN => (.ROLLED_BACK, ⟨200, none⟩)
  | .COMMITTED => (.COMMITTED, ⟨400, some txStateFailureBody⟩)
  | .ROLLED_BACK => (.ROLLED_BACK, ⟨400, some txStateFailureBody⟩)
  | .CLOSED => (.CLOSED, ⟨400, some txStateFailureBody⟩)

/-- Modelled from the spec: the server handling of POST
`/v1/transactions/<id>/close` — any state moves to `CLOSED` with a success
response; closing an already-closed transaction is a no-op, never an error. -/
def serverCloseRespond : TxState → TxState × HttpResponse
  | _ => (.CLOSED, ⟨200, none⟩)

/-- Modelled from the spec: the server handling of POST
`/v1/transactions/<id>/query` — valid only while `OPEN` (state unchanged,
the supplied answer body returned); any other state answers a
Transaction-State failure. -/
def serverQueryRespond (answer : Dict) : TxState → TxState × HttpResponse
  | .OPEN => (.OPEN, ⟨200, some answer⟩)
  | .COMMITTED => (.COMMITTED, ⟨400, some txStateFailureBody⟩)
  | .ROLLED_BACK => (.ROLLED_BACK, ⟨400, some txStateFailureBody⟩)
  | .CLOSED => (.CLOSED, ⟨400, some txStateFailureBody⟩)

/-- Modelled from the spec: the observable server database state for the
one-shot equivalence — committed rows per database, pending rows per open
transaction, and the next fresh transaction id. -/
structure ServerDB where
  committed : List (String × List String)
  pendingTx : List (Nat × String × List String)
  nextId : Nat

/-- Update (or create) the row list of one database. -/
def updateDb (c : List (String × List String)) (db : String)
    (f : List String → List String) : List (String × List String) :=
  match c with
  | [] => [(db, f [])]
  | (name, rows) :: rest =>
    if name = db then (name, f rows) :: rest
    else (name, rows) :: updateDb rest db f

/-- Modelled from the spec: opening a transaction allocates a fresh id with
an empty pending write set. -/
def serverOpenTx (s : ServerDB) (db : String) : Nat × ServerDB :=
  (s.nextId,
   { s with pendingTx := (s.nextId, db, []) :: s.pendingTx,
            nextId := s.nextId + 1 })

/-- Modelled from the spec: a write query inside a transaction appends a row
to that transaction's pending write set; committed data is untouched. -/
def serverWriteTx (s : ServerDB) (tid : Nat) (row : String) : ServerDB :=
  { s with pendingTx := s.pendingTx.map (fun e =>
      if e.1 = tid then (e.1, e.2.1, e.2.2 ++ [row]) else e) }

/-- Modelled from the spec: commit merges the transaction's pending rows
into the committed rows of its database. -/
def serverCommitTx (s : ServerDB) (tid : Nat) : ServerDB :=
  match s.pendingTx.find? (fun e => e.1 = tid) with
  | some e => { s with committed := updateDb s.committed e.2.1 (fun rows => rows ++ e.2.2) }
  | none => s

/-- Modelled from the spec: close discards the transaction's entry (pending
writes are dropped; committed data stays). -/
def serverCloseTx (s : ServerDB) (tid : Nat) : ServerDB :=
  { s with pendingTx := s.pendingTx.filter (fun e => e.1 ≠ tid) }

/-- Modelled from the spec: the one-shot endpoint handles open, query,
commit and close server-side in one round trip — with `commit = true` a
write query's row lands directly in the committed data; with
`commit = false` the state is left unchanged (the implicit transaction is
discarded on close). -/
def serverOneShot (s : ServerDB) (db : String) (row : String) (commit : Bool) : ServerDB :=
  if commit then { s with committed := updateDb s.committed db (fun rows => rows ++ [row]) }
  else s

/-- The rows visible in a database afterward: its committed rows. -/
def visibleRows (s : ServerDB) (db : String) : List String :=
  match s.committed.find? (fun e => e.1 = db) with
  | some e => e.2
  | none => []

lemma jsonIsStr_eq_true {j : Json} {s : String} : jsonIsStr j s = true ↔ j = Json.str s := by
  cases j <;> simp [jsonIsStr]

/-- C3: for every `QueryResult`, `as_concept_rows` returns the answer
sequence exactly when the answer-type tag is `conceptRows` and raises a
Type-Mismatch `TypeDBHttpError` otherwise; likewise `as_concept_documents`
for `conceptDocuments` — a mismatched access never returns a value. -/
theorem C3_result_accessors_strict (qr : QueryResult) :
    (qr.answer_type = Json.str "conceptRows" → qr.as_concept_rows = .ok qr.answers)
  ∧ (qr.answer_type ≠ Json.str "conceptRows" →
      qr.as_concept_rows = .error (.typedb ⟨.str ("Cannot get concept rows from " ++
        pyStr qr.answer_type ++ " response"), none, none⟩))
  ∧ (qr.answer_type = Json.str "conceptDocuments" →
      qr.as_concept_documents = .ok qr.answers)
  ∧ (qr.answer_type ≠ Json.str "conceptDocuments" →
      qr.as_concept_documents = .error (.typedb ⟨.str ("Cannot get concept documents from " ++
        pyStr qr.answer_type ++ " response"), none, none⟩)) := by
  refine ⟨fun h => ?_, fun h => ?_, fun h => ?_, fun h => ?_⟩
  · simp [QueryResult.as_concept_rows, h, jsonIsStr]
  · have hf : jsonIsStr qr.answer_type "conceptRows" = false := by
      rcases hb : jsonIsStr qr.answer_type "conceptRows" with _ | _
      · rfl
      · exact absurd (jsonIsStr_eq_true.mp hb) h
    simp [QueryResult.as_concept_rows, hf]
  · simp [QueryResult.as_concept_documents, h, jsonIsStr]
  · have hf : jsonIsStr qr.answer_type "conceptDocuments" = false := by
      rcases hb : jsonIsStr qr.answer_type "conceptDocuments" with _ | _
      · rfl
      · exact absurd (jsonIsStr_eq_true.mp hb) h
    simp [QueryResult.as_concept_documents, hf]

/-- Witness for C3 at concrete results: a `conceptRows` result yields its
answers, and the rows accessor on a `conceptDocuments` result raises. -/
theorem C3_result_accessors_strict_witness :
    (QueryResult.ofResponse [("answerType", Json.str "conceptRows"),
        ("answers", Json.arr [Json.null])]).as_concept_rows = .ok (Json.arr [Json.null])
  ∧ (QueryResult.ofResponse [("answerType", Json.str "conceptDocuments")]).as_concept_rows
      = .error (.typedb ⟨.str "Cannot get concept rows from conceptDocuments response",
          none, none⟩) := by
  constructor
  · exact (C3_result_accessors_strict _).1 rfl
  · have h := (C3_result_accessors_strict
      (QueryResult.ofResponse [("answerType", Json.str "conceptDocuments")])).2.1
      (by simp [QueryResult.ofResponse, dictGetD, dictGet])
    simpa [QueryResult.ofResponse, dictGetD, dictGet, pyStr] using h

/-- C10: a response dictionary without an `answerType` key — the empty
object from an empty body included — defaults the tag to `ok` (and, when
`answers` is also absent, the answer list to empty), so both accessors
raise a Type-Mismatch failure instead of returning an empty sequence. -/
theorem C10_missing_answer_type_defaults (d : Dict)
    (h : dictGet d "answerType" = none) :
    (QueryResult.ofResponse d).answer_type = .str "ok"
  ∧ (dictGet d "answers" = none → (QueryResult.ofResponse d).answers = .arr [])
  ∧ (QueryResult.ofResponse []).answer_type = .str "ok"
  ∧ (QueryResult.ofResponse []).answers = .arr []
  ∧ (QueryResult.ofResponse d).as_concept_rows
      = .error (.typedb ⟨.str "Cannot get concept rows from ok response", none, none⟩)
  ∧ (QueryResult.ofResponse d).as_concept_documents
      = .error (.typedb ⟨.str "Cannot get concept documents from ok response", none, none⟩) := by
  have htag : (QueryResult.ofResponse d).answer_type = .str "ok" := by
    simp [QueryResult.ofResponse, dictGetD, h]
  refine ⟨htag, fun ha => ?_, rfl, rfl, ?_, ?_⟩
  · simp [QueryResult.ofResponse, dictGetD, ha]
  · have := (C3_result_accessors_strict (QueryResult.ofResponse d)).2.1 (by simp [htag])
    rw [this, htag]
    simp [pyStr]
  · have := (C3_result_accessors_strict (QueryResult.ofResponse d)).2.2.2 (by simp [htag])
    rw [this, htag]
    simp [pyStr]

/-- Witness for C10 at the empty object (the decoded empty response body). -/
theorem C10_missing_answer_type_defaults_witness :
    (QueryResult.ofResponse []).answer_type = .str "ok"
  ∧ (QueryResult.ofResponse []).as_concept_rows
      = .error (.typedb ⟨.str "Cannot get concept rows from ok response", none, none⟩) := by
  have h := C10_missing_answer_type_defaults [] rfl
  exact ⟨h.1, h.2.2.2.2.1⟩

/-- C7: `_handle_response` on a status of 400 or more raises a
`TypeDBHttpError` carrying the original status code together with the
server-supplied `message` and `code` from the error body (message falls
back to `HTTP <status>` when absent); a success response with an empty body
is the empty object, not an error. -/
theorem C7_handle_response_preserves_error (resp : HttpResponse) :
    (400 ≤ resp.status_code →
       handle_response resp = .error (.typedb
         ⟨dictGetD (resp.body.getD []) "message" (.str ("HTTP " ++ toString resp.status_code)),
          dictGet (resp.body.getD []) "code",
          some resp.status_code⟩))
  ∧ (resp.status_code < 400 → resp.body = none → handle_response resp = .ok []) := by
  constructor
  · intro h
    simp [handle_response, h]
  · intro h hb
    simp [handle_response, Nat.not_le.mpr h, hb]

/-- Witness for C7: a 409 with an `{message, code}` body keeps both and the
status; a 200 with an empty body is the empty object. -/
theorem C7_handle_response_preserves_error_witness :
    handle_response ⟨409, some [("message", Json.str "db exists"), ("code", Json.str "DBE")]⟩
      = .error (.typedb ⟨.str "db exists", some (.str "DBE"), some 409⟩)
  ∧ handle_response ⟨200, none⟩ = .ok [] := by
  constructor
  · exact (C7_handle_response_preserves_error _).1 (by decide)
  · exact (C7_handle_response_preserves_error _).2 (by decide) rfl

/-- C9: on a `Transaction` whose id is unset (`open` never ran), `query`,
`commit` and `rollback` raise `Transaction not open` and leave the state —
script and trace included — untouched: no HTTP request is issued. -/
theorem C9_unopened_transaction_rejects (u p db ty q : String)
    (opts : Option TransactionOptions) (qopts : Option QueryOptions) (st : St) :
    Transaction.runQuery u p ⟨db, ty, opts, none⟩ q qopts st
      = (.error (.typedb ⟨.str "Transaction not open", none, none⟩), st)
  ∧ Transaction.commit u p ⟨db, ty, opts, none⟩ st
      = (.error (.typedb ⟨.str "Transaction not open", none, none⟩), st)
  ∧ Transaction.rollback u p ⟨db, ty, opts, none⟩ st
      = (.error (.typedb ⟨.str "Transaction not open", none, none⟩), st) := by
  refine ⟨?_, ?_, ?_⟩ <;>
    simp [Transaction.runQuery, Transaction.commit, Transaction.rollback, Transaction.idTruthy]

lemma isRetryStatus_post (s : Nat) : isRetryStatus "POST" s = false := by
  simp [isRetryStatus, defaultAllowedMethods]

lemma isRetryStatus_401 (m : String) : isRetryStatus m 401 = false := by
  simp [isRetryStatus, retryForcelist]

lemma sessionSend_no_retry {m : String} {r : HttpResponse}
    (h : isRetryStatus m r.status_code = false) (b : Nat) (rest : List NetOutcome) :
    sessionSend m b (.response r :: rest) = (.ok r, rest) := by
  cases b <;> simp [sessionSend, h]

/-- C6: `_get_token` returns the cached token without a sign-in when one is
present; otherwise it signs in with the stored credentials, caches and
returns the token from the response.  A sign-in failure — connection-level
or a non-2xx status — raises `Failed to authenticate` and leaves no token
cached. -/
theorem C6_token_contract (u p : String) :
    (∀ (st : St) (t : Json), st.token = some t → jsonTruthy t = true →
       get_token u p st = (.ok t, st))
  ∧ (∀ (trace : List TraceEntry) (sc : Nat) (d : Dict) (rest : List NetOutcome) (t : Json),
       sc < 400 → dictGet d "token" = some t →
       get_token u p ⟨none, .response ⟨sc, some d⟩ :: rest, trace⟩
         = (.ok t, ⟨some t, rest, trace ++ [.signin u p]⟩))
  ∧ (∀ (trace : List TraceEntry) (sc : Nat) (b : Option Dict) (rest : List NetOutcome),
       400 ≤ sc →
       get_token u p ⟨none, .response ⟨sc, b⟩ :: rest, trace⟩
         = (.error (.typedb ⟨.str ("Failed to authenticate: HTTP " ++ toString sc ++ " error"),
              none, none⟩),
            ⟨none, rest, trace ++ [.signin u p]⟩))
  ∧ (∀ (trace : List TraceEntry) (script : List NetOutcome) (m : String),
       (sessionSend "POST" 2 script).1 = .error m →
       get_token u p ⟨none, script, trace⟩
         = (.error (.typedb ⟨.str ("Failed to authenticate: " ++ m), none, none⟩),
            ⟨none, (sessionSend "POST" 2 script).2, trace⟩)) := by
  refine ⟨?_, ?_, ?_, ?_⟩
  · intro st t h ht
    simp [get_token, h, ht]
  · intro trace sc d rest t hsc htok
    have hs := sessionSend_no_retry (m := "POST") (r := ⟨sc, some d⟩) (isRetryStatus_post sc) 2 rest
    simp [get_token, refresh_token, hs, Nat.not_le.mpr hsc, htok]
  · intro trace sc b rest hsc
    have hs := sessionSend_no_retry (m := "POST") (r := ⟨sc, b⟩) (isRetryStatus_post sc) 2 rest
    simp [get_token, refresh_token, hs, hsc]
  · intro trace script m herr
    rcases hs : sessionSend "POST" 2 script with ⟨res, rest2⟩
    rw [hs] at herr
    simp at herr
    subst herr
    simp [get_token, refresh_token, hs]

/-- Witness for C6: a cached token is returned as-is; a fresh sign-in caches
the returned token; a 401 sign-in raises and caches nothing. -/
theorem C6_token_contract_witness :
    get_token "u" "p" ⟨some (.str "tok"), [], []⟩ = (.ok (.str "tok"), ⟨some (.str "tok"), [], []⟩)
  ∧ get_token "u" "p" ⟨none, [.response ⟨200, some [("token", Json.str "t1")]⟩], []⟩
      = (.ok (.str "t1"), ⟨some (.str "t1"), [], [.signin "u" "p"]⟩)
  ∧ get_token "u" "p" ⟨none, [.response ⟨401, none⟩], []⟩
      = (.error (.typedb ⟨.str "Failed to authenticate: HTTP 401 error", none, none⟩),
         ⟨none, [], [.signin "u" "p"]⟩) := by
  refine ⟨(C6_token_contract "u" "p").1 _ _ rfl (by decide), ?_, ?_⟩
  · exact (C6_token_contract "u" "p").2.1 [] 200 _ [] _ (by decide) rfl
  · exact (C6_token_contract "u" "p").2.2.1 [] 401 none [] (by decide)

/-- C1: an authenticated request that receives a 401 clears the cached
token, signs in again, and replays the identical request (same method,
path, body and query parameters) exactly once, returning the replay's
response with exactly three wire exchanges consumed; if the replay is
itself a 401, response handling surfaces it as a `TypeDBHttpError`
carrying status 401 and no further attempt is made. -/
theorem C1_401_refresh_replay_once (u p method path : String)
    (data params : Option Dict) (t0 t1 : Json) (b1 : Option Dict) (d : Dict)
    (sc2 : Nat) (b2 : Option Dict) (rest : List NetOutcome) (trace : List TraceEntry)
    (hretry : isRetryStatus method sc2 = false)
    (htok : dictGet d "token" = some t1) (ht0 : jsonTruthy t0 = true) :
    make_request u p method path data params
        ⟨some t0, .response ⟨401, b1⟩ :: .response ⟨200, some d⟩ ::
                  .response ⟨sc2, b2⟩ :: rest, trace⟩
      = (.ok ⟨sc2, b2⟩,
         ⟨some t1, rest,
          trace ++ [.request ⟨method, path, data, params, t0⟩,
                    .signin u p,
                    .request ⟨method, path, data, params, t1⟩]⟩)
  ∧ (sc2 = 401 →
       handle_response ⟨sc2, b2⟩ = .error (.typedb
         ⟨dictGetD (b2.getD []) "message" (.str ("HTTP " ++ toString sc2)),
          dictGet (b2.getD []) "code", some sc2⟩)) := by
  constructor
  · have h1 := sessionSend_no_retry (m := method) (r := ⟨401, b1⟩) (isRetryStatus_401 method) 2
      (.response ⟨200, some d⟩ :: .response ⟨sc2, b2⟩ :: rest)
    have h2 := sessionSend_no_retry (m := "POST") (r := ⟨200, some d⟩) (isRetryStatus_post 200) 2
      (.response ⟨sc2, b2⟩ :: rest)
    have h3 := sessionSend_no_retry (m := method) (r := ⟨sc2, b2⟩) hretry 2 rest
    simp [make_request, get_token, refresh_token, h1, h2, h3, htok, ht0]
  · intro h
    subst h
    simp [handle_response]

/-- Witness for C1: a concrete GET whose replay is itself a 401 — the
replay is returned (three outcomes consumed, none left) and response
handling raises with status 401. -/
theorem C1_401_refresh_replay_once_witness :
    make_request "u" "p" "GET" "/v1/databases" none none
        ⟨some (.str "t0"), [.response ⟨401, none⟩,
                            .response ⟨200, some [("token", Json.str "t1")]⟩,
                            .response ⟨401, none⟩], []⟩
      = (.ok ⟨401, none⟩,
         ⟨some (.str "t1"), [],
          [.request ⟨"GET", "/v1/databases", none, none, .str "t0"⟩,
           .signin "u" "p",
           .request ⟨"GET", "/v1/databases", none, none, .str "t1"⟩]⟩)
  ∧ handle_response ⟨401, none⟩
      = .error (.typedb ⟨.str "HTTP 401", none, some 401⟩) := by
  have h := C1_401_refresh_replay_once "u" "p" "GET" "/v1/databases" none none
    (.str "t0") (.str "t1") none [("token", Json.str "t1")] 401 none [] []
    (by decide) rfl (by decide)
  exact ⟨h.1, h.2 rfl⟩

lemma isRetryStatus_of_not_mem {s : Nat} (h : s ∉ retryForcelist) (m : String) :
    isRetryStatus m s = false := by
  simp [isRetryStatus, h]

/-- Counterexample to C2 as stated: the driver mounts
`Retry(total=2, backoff_factor=0.5, status_forcelist=[...])` with urllib3's
default method allowlist, which excludes POST — so on a POST request (the
method of every query, transaction and sign-in call) the response sequence
[503, 503, 200] does not succeed with the 200 payload: the first 503 is
returned immediately, the two remaining scripted outcomes are never
requested, and exactly one request goes on the wire. -/
theorem C2_counterexample_post_not_retried :
    make_request "u" "p" "POST" "/v1/query" (some []) none
        ⟨some (.str "tok"), [.response ⟨503, none⟩, .response ⟨503, none⟩,
                             .response ⟨200, some [("answerType", Json.str "ok")]⟩], []⟩
      = (.ok ⟨503, none⟩,
         ⟨some (.str "tok"),
          [.response ⟨503, none⟩, .response ⟨200, some [("answerType", Json.str "ok")]⟩],
          [.request ⟨"POST", "/v1/query", some [], none, .str "tok"⟩]⟩) := by
  have hs := sessionSend_no_retry (m := "POST") (r := ⟨503, none⟩) (isRetryStatus_post 503) 2
    [.response ⟨503, none⟩, .response ⟨200, some [("answerType", Json.str "ok")]⟩]
  simp [make_request, get_token, jsonTruthy, hs]

/-- C2 (amended): status-based retry applies only to methods in urllib3's
default allowlist.  For those (e.g. GET), a forcelist status is retried with
nondecreasing backoff within three total attempts — [503, 503, 200] succeeds
with the 200 payload and [503, 503, 503] exhausts the budget into a
Transport failure; for POST the forcelist status is returned on the first
attempt.  Connection-level failures are retried for every method, and a 4xx
other than 401/429 is surfaced immediately without retry. -/
theorem C2_retry_policy (u p path : String) (data params : Option Dict) (t : Json)
    (trace : List TraceEntry) (ht : jsonTruthy t = true) :
    (∀ (b1 b2 : Option Dict) (payload : Dict) (rest : List NetOutcome),
       make_request u p "GET" path data params
           ⟨some t, .response ⟨503, b1⟩ :: .response ⟨503, b2⟩ ::
                    .response ⟨200, some payload⟩ :: rest, trace⟩
         = (.ok ⟨200, some payload⟩,
            ⟨some t, rest, trace ++ [.request ⟨"GET", path, data, params, t⟩]⟩)
       ∧ handle_response ⟨200, some payload⟩ = .ok payload)
  ∧ (∀ (b1 b2 b3 : Option Dict) (rest : List NetOutcome),
       make_request u p "GET" path data params
           ⟨some t, .response ⟨503, b1⟩ :: .response ⟨503, b2⟩ ::
                    .response ⟨503, b3⟩ :: rest, trace⟩
         = (.error (.typedb ⟨.str "HTTP request failed: too many retries", none, none⟩),
            ⟨some t, rest, trace⟩))
  ∧ (∀ (method : String) (sc : Nat) (b : Option Dict) (rest : List NetOutcome),
       400 ≤ sc → sc ≤ 499 → sc ≠ 401 → sc ≠ 429 →
       make_request u p method path data params ⟨some t, .response ⟨sc, b⟩ :: rest, trace⟩
         = (.ok ⟨sc, b⟩,
            ⟨some t, rest, trace ++ [.request ⟨method, path, data, params, t⟩]⟩)
       ∧ ∃ e, handle_response ⟨sc, b⟩ = .error (.typedb e) ∧ e.status_code = some sc)
  ∧ (∀ (sc : Nat) (b : Option Dict) (rest : List NetOutcome),
       sc ∈ retryForcelist →
       make_request u p "POST" path data params ⟨some t, .response ⟨sc, b⟩ :: rest, trace⟩
         = (.ok ⟨sc, b⟩,
            ⟨some t, rest, trace ++ [.request ⟨"POST", path, data, params, t⟩]⟩))
  ∧ (∀ (method m1 m2 : String) (payload : Option Dict) (rest : List NetOutcome),
       make_request u p method path data params
           ⟨some t, .conn_error m1 :: .conn_error m2 ::
                    .response ⟨200, payload⟩ :: rest, trace⟩
         = (.ok ⟨200, payload⟩,
            ⟨some t, rest, trace ++ [.request ⟨method, path, data, params, t⟩]⟩))
  ∧ (∀ m n : Nat, m ≤ n → get_backoff_time m ≤ get_backoff_time n) := by
  refine ⟨?_, ?_, ?_, ?_, ?_, ?_⟩
  · intro b1 b2 payload rest
    have h503 : isRetryStatus "GET" 503 = true := by decide
    have h200 : isRetryStatus "GET" 200 = false := by decide
    constructor
    · simp [make_request, get_token, ht, sessionSend, h503, h200]
    · simp [handle_response]
  · intro b1 b2 b3 rest
    have h503 : isRetryStatus "GET" 503 = true := by decide
    simp [make_request, get_token, ht, sessionSend, h503]
  · intro method sc b rest h400 h499 h401 h429
    have hnm : sc ∉ retryForcelist := by
      intro hmem
      simp [retryForcelist] at hmem
      omega
    have hs := sessionSend_no_retry (m := method) (r := ⟨sc, b⟩)
      (isRetryStatus_of_not_mem hnm method) 2 rest
    constructor
    · simp [make_request, get_token, ht, hs, h401]
    · refine ⟨⟨dictGetD (b.getD []) "message" (.str ("HTTP " ++ toString sc)),
        dictGet (b.getD []) "code", some sc⟩, ?_, rfl⟩
      simp [handle_response, h400]
  · intro sc b rest hmem
    have h401 : sc ≠ 401 := by
      intro h
      subst h
      simp [retryForcelist] at hmem
    have hs := sessionSend_no_retry (m := "POST") (r := ⟨sc, b⟩) (isRetryStatus_post sc) 2 rest
    simp [make_request, get_token, ht, hs, h401]
  · intro method m1 m2 payload rest
    have h200 : isRetryStatus method 200 = false :=
      isRetryStatus_of_not_mem (by decide) method
    simp [make_request, get_token, ht, sessionSend, h200]
  · intro m n hmn
    unfold get_backoff_time
    split_ifs with h1 h2 h2
    · exact le_refl 0
    · refine le_min (by norm_num) ?_
      positivity
    · omega
    · refine min_le_min (le_refl _) ?_
      have := pow_le_pow_right₀ (a := (2 : ℚ)) (by norm_num) (Nat.sub_le_sub_right hmn 1)
      nlinarith [this]

/-- Witness for C2 (amended) at concrete inputs: a GET sequence
[503, 503, 200] succeeds with the 200 payload, [503, 503, 503] exhausts the
budget into a Transport failure, and a 404 is surfaced immediately. -/
theorem C2_retry_policy_witness :
    make_request "u" "p" "GET" "/v1/databases" none none
        ⟨some (.str "t"), [.response ⟨503, none⟩, .response ⟨503, none⟩,
                           .response ⟨200, some [("databases", Json.arr [])]⟩], []⟩
      = (.ok ⟨200, some [("databases", Json.arr [])]⟩,
         ⟨some (.str "t"), [], [.request ⟨"GET", "/v1/databases", none, none, .str "t"⟩]⟩)
  ∧ make_request "u" "p" "GET" "/v1/databases" none none
        ⟨some (.str "t"), [.response ⟨503, none⟩, .response ⟨503, none⟩,
                           .response ⟨503, none⟩], []⟩
      = (.error (.typedb ⟨.str "HTTP request failed: too many retries", none, none⟩),
         ⟨some (.str "t"), [], []⟩)
  ∧ make_request "u" "p" "GET" "/v1/databases" none none
        ⟨some (.str "t"), [.response ⟨404, none⟩], []⟩
      = (.ok ⟨404, none⟩,
         ⟨some (.str "t"), [], [.request ⟨"GET", "/v1/databases", none, none, .str "t"⟩]⟩) := by
  refine ⟨?_, ?_, ?_⟩
  · exact ((C2_retry_policy "u" "p" "/v1/databases" none none (.str "t") [] (by decide)).1
      none none [("databases", Json.arr [])] []).1
  · exact (C2_retry_policy "u" "p" "/v1/databases" none none (.str "t") [] (by decide)).2.1
      none none none []
  · exact ((C2_retry_policy "u" "p" "/v1/databases" none none (.str "t") [] (by decide)).2.2.1
      "GET" 404 none [] (by decide) (by decide) (by decide) (by decide)).1

/-- C5: commit moves an `OPEN` transaction to `COMMITTED` irreversibly, and
on a committed (or rolled-back) transaction any subsequent commit, rollback
or query leaves the server state unchanged and comes back through the
driver as a Transaction-State failure (`TypeDBHttpError` carrying the
server's message, code and non-2xx status). -/
theorem C5_terminal_states_reject_operations (u p db ty tid q : String) (tok : Json)
    (ans : Dict) (qopts : Option QueryOptions) (trace : List TraceEntry) (s : TxState)
    (hs : s = TxState.COMMITTED ∨ s = TxState.ROLLED_BACK) (htid : tid ≠ "")
    (htk : jsonTruthy tok = true) :
    (serverCommitRespond .OPEN).1 = .COMMITTED
  ∧ (serverRollbackRespond .OPEN).1 = .ROLLED_BACK
  ∧ (serverCommitRespond s).1 = s
  ∧ (serverRollbackRespond s).1 = s
  ∧ (serverQueryRespond ans s).1 = s
  ∧ Transaction.commit u p ⟨db, ty, none, some (.str tid)⟩
        ⟨some tok, [.response (serverCommitRespond s).2], trace⟩
      = (.error (.typedb ⟨.str "Transaction-State failure",
                          some (.str "TXN_STATE"), some 400⟩),
         ⟨some tok, [],
          trace ++ [.request ⟨"POST", "/v1/transactions/" ++ tid ++ "/commit",
                              some [], none, tok⟩]⟩)
  ∧ Transaction.rollback u p ⟨db, ty, none, some (.str tid)⟩
        ⟨some tok, [.response (serverRollbackRespond s).2], trace⟩
      = (.error (.typedb ⟨.str "Transaction-State failure",
                          some (.str "TXN_STATE"), some 400⟩),
         ⟨some tok, [],
          trace ++ [.request ⟨"POST", "/v1/transactions/" ++ tid ++ "/rollback",
                              some [], none, tok⟩]⟩)
  ∧ Transaction.runQuery u p ⟨db, ty, none, some (.str tid)⟩ q qopts
        ⟨some tok, [.response (serverQueryRespond ans s).2], trace⟩
      = (.error (.typedb ⟨.str "Transaction-State failure",
                          some (.str "TXN_STATE"), some 400⟩),
         ⟨some tok, [],
          trace ++ [.request ⟨"POST", "/v1/transactions/" ++ tid ++ "/query",
                              some (queryPayload q qopts), none, tok⟩]⟩) := by
  have hsend : ∀ (b : Nat) (r : HttpResponse) (rest : List NetOutcome),
      sessionSend "POST" b (.response r :: rest) = (.ok r, rest) :=
    fun b r rest => sessionSend_no_retry (isRetryStatus_post r.status_code) b rest
  have htidt : jsonTruthy (.str tid) = true := by simp [jsonTruthy, htid]
  rcases hs with h | h <;> subst h <;>
    refine ⟨rfl, rfl, rfl, rfl, rfl, ?_, ?_, ?_⟩ <;>
    simp [Transaction.commit, Transaction.rollback, Transaction.runQuery,
      Transaction.idTruthy, htidt, htk, pyStr, commit_transaction,
      rollback_transaction, driverQuery, serverCommitRespond, serverRollbackRespond,
      serverQueryRespond, make_request, get_token, hsend, handle_response,
      txStateFailureBody, dictGetD, dictGet]

/-- Witness for C5: committing a committed transaction over the wire fails
with the Transaction-State failure, and commit on `OPEN` is `COMMITTED`. -/
theorem C5_terminal_states_reject_operations_witness :
    (serverCommitRespond .OPEN).1 = .COMMITTED
  ∧ Transaction.commit "u" "p" ⟨"db", "write", none, some (.str "tx1")⟩
        ⟨some (.str "tok"), [.response (serverCommitRespond .COMMITTED).2], []⟩
      = (.error (.typedb ⟨.str "Transaction-State failure",
                          some (.str "TXN_STATE"), some 400⟩),
         ⟨some (.str "tok"), [],
          [.request ⟨"POST", "/v1/transactions/tx1/commit", some [], none, .str "tok"⟩]⟩) := by
  have h := C5_terminal_states_reject_operations "u" "p" "db" "write" "tx1" "q"
    (.str "tok") [] none [] TxState.COMMITTED (Or.inl rfl) (by decide) (by decide)
  exact ⟨h.1, h.2.2.2.2.2.1⟩

lemma handle_response_of_success {r : HttpResponse} (h : r.status_code < 400) :
    ∃ d, handle_response r = .ok d := by
  unfold handle_response
  rw [if_neg (Nat.not_le.mpr h)]
  cases r.body
  · exact ⟨[], rfl⟩
  · exact ⟨_, rfl⟩

lemma close_transaction_ok (u p tid : String) (tok : Json) (r : HttpResponse)
    (script2 : List NetOutcome) (trace2 : List TraceEntry)
    (h401 : r.status_code ≠ 401) (hok : r.status_code < 400)
    (htk : jsonTruthy tok = true) :
    close_transaction u p tid ⟨some tok, .response r :: script2, trace2⟩
      = (.ok (),
         ⟨some tok, script2,
          trace2 ++ [.request ⟨"POST", "/v1/transactions/" ++ tid ++ "/close",
                               some [], none, tok⟩]⟩) := by
  have hsend : sessionSend "POST" 2 (.response r :: script2) = (.ok r, script2) :=
    sessionSend_no_retry (isRetryStatus_post r.status_code) 2 script2
  obtain ⟨d, hd⟩ := handle_response_of_success hok
  simp [close_transaction, make_request, get_token, htk, hsend, h401, hd]

/-- C4: for a transaction opened through the scoped context manager, the
close request is issued on every exit path of the scope — normal completion
and propagated failure alike, including when commit or rollback already ran
inside the body — and (server side, modelled from the spec) close moves any
state to `CLOSED` and never fails, so a close after commit, or on an
already-closed transaction, does not raise. -/
theorem C4_scoped_close_every_exit_path {α : Type} (u p db ty tid : String)
    (opts : Option TransactionOptions) (tok0 : Json) (script1 : List NetOutcome)
    (trace0 : List TraceEntry) (body : Transaction → St → Except PyError α × St)
    (htid : tid ≠ "") (htok0 : jsonTruthy tok0 = true) :
    (∀ (a : α) (tok2 : Json) (r : HttpResponse) (script2 : List NetOutcome)
       (trace2 : List TraceEntry),
       body ⟨db, ty, opts, some (.str tid)⟩
           ⟨some tok0, script1,
            trace0 ++ [.request ⟨"POST", "/v1/transactions/open",
                                 some (openTransactionPayload db ty opts), none, tok0⟩]⟩
         = (.ok a, ⟨some tok2, .response r :: script2, trace2⟩) →
       r.status_code ≠ 401 → r.status_code < 400 → jsonTruthy tok2 = true →
       withTransaction u p db ty opts body
           ⟨some tok0, .response ⟨200, some [("transactionId", Json.str tid)]⟩ :: script1,
            trace0⟩
         = (.ok a,
            ⟨some tok2, script2,
             trace2 ++ [.request ⟨"POST", "/v1/transactions/" ++ tid ++ "/close",
                                  some [], none, tok2⟩]⟩))
  ∧ (∀ (e : PyError) (tok2 : Json) (r : HttpResponse) (script2 : List NetOutcome)
       (trace2 : List TraceEntry),
       body ⟨db, ty, opts, some (.str tid)⟩
           ⟨some tok0, script1,
            trace0 ++ [.request ⟨"POST", "/v1/transactions/open",
                                 some (openTransactionPayload db ty opts), none, tok0⟩]⟩
         = (.error e, ⟨some tok2, .response r :: script2, trace2⟩) →
       r.status_code ≠ 401 → r.status_code < 400 → jsonTruthy tok2 = true →
       withTransaction u p db ty opts body
           ⟨some tok0, .response ⟨200, some [("transactionId", Json.str tid)]⟩ :: script1,
            trace0⟩
         = (.error e,
            ⟨some tok2, script2,
             trace2 ++ [.request ⟨"POST", "/v1/transactions/" ++ tid ++ "/close",
                                  some [], none, tok2⟩]⟩))
  ∧ (∀ s : TxState, serverCloseRespond s = (.CLOSED, ⟨200, none⟩))
  ∧ (∀ (tok : Json) (trace : List TraceEntry) (s : TxState),
       jsonTruthy tok = true →
       close_transaction u p tid ⟨some tok, [.response (serverCloseRespond s).2], trace⟩
         = (.ok (),
            ⟨some tok, [],
             trace ++ [.request ⟨"POST", "/v1/transactions/" ++ tid ++ "/close",
                                 some [], none, tok⟩]⟩)) := by
  have hsend : ∀ (b : Nat) (r : HttpResponse) (rest : List NetOutcome),
      sessionSend "POST" b (.response r :: rest) = (.ok r, rest) :=
    fun b r rest => sessionSend_no_retry (isRetryStatus_post r.status_code) b rest
  have hopen : open_transaction u p db ty opts
      ⟨some tok0, .response ⟨200, some [("transactionId", Json.str tid)]⟩ :: script1,
       trace0⟩
      = (.ok (.str tid),
         ⟨some tok0, script1,
          trace0 ++ [.request ⟨"POST", "/v1/transactions/open",
                               some (openTransactionPayload db ty opts), none, tok0⟩]⟩) := by
    simp [open_transaction, make_request, get_token, htok0, hsend, handle_response, dictGet]
  refine ⟨?_, ?_, fun s => rfl, ?_⟩
  · intro a tok2 r script2 trace2 hbody h401 hok htk2
    have htidt : jsonTruthy (.str tid) = true := by simp [jsonTruthy, htid]
    simp [withTransaction, Transaction.enter, hopen, hbody, Transaction.exitScope,
      htidt, pyStr,
      close_transaction_ok u p tid tok2 r script2 trace2 h401 hok htk2]
  · intro e tok2 r script2 trace2 hbody h401 hok htk2
    have htidt : jsonTruthy (.str tid) = true := by simp [jsonTruthy, htid]
    simp [withTransaction, Transaction.enter, hopen, hbody, Transaction.exitScope,
      htidt, pyStr,
      close_transaction_ok u p tid tok2 r script2 trace2 h401 hok htk2]
  · intro tok trace s htk
    exact close_transaction_ok u p tid tok ⟨200, none⟩ [] trace (by decide) (by decide) htk

/-- Witness for C4: a body that commits and then raises — the close request
still goes on the wire and the error propagates; and a close answered by
the already-`CLOSED` server state succeeds. -/
theorem C4_scoped_close_every_exit_path_witness :
    withTransaction (α := Unit) "u" "p" "db" "write" none
        (fun _ st => (.error (.keyError "boom"), st))
        ⟨some (.str "tok"), [.response ⟨200, some [("transactionId", Json.str "tx1")]⟩,
                             .response ⟨200, none⟩], []⟩
      = (.error (.keyError "boom"),
         ⟨some (.str "tok"), [],
          [.request ⟨"POST", "/v1/transactions/open",
                     some (openTransactionPayload "db" "write" none), none, .str "tok"⟩,
           .request ⟨"POST", "/v1/transactions/tx1/close", some [], none, .str "tok"⟩]⟩)
  ∧ close_transaction "u" "p" "tx1"
        ⟨some (.str "tok"), [.response (serverCloseRespond .CLOSED).2], []⟩
      = (.ok (),
         ⟨some (.str "tok"), [],
          [.request ⟨"POST", "/v1/transactions/tx1/close", some [], none, .str "tok"⟩]⟩) := by
  have h := C4_scoped_close_every_exit_path (α := Unit) "u" "p" "db" "write" "tx1" none
    (.str "tok") [.response ⟨200, none⟩] [] (fun _ st => (.error (.keyError "boom"), st))
    (by decide) (by decide)
  constructor
  · have h2 := h.2.1 (.keyError "boom") (.str "tok") ⟨200, none⟩ [] _ rfl (by decide)
      (by decide) (by decide)
    simpa using h2
  · exact h.2.2.2 (.str "tok") [] TxState.CLOSED (by decide)

/-- C8: `one_shot_query` performs exactly one POST to `/v1/query` whose
payload carries the query, the commit flag, the database name, the
transaction type, and each option object exactly when it was supplied; and
(server side, modelled from the spec) a committed one-shot write leaves the
same rows visible as the explicit open → write → commit → close sequence. -/
theorem C8_one_shot_single_request_equiv (u p q db ty : String) (commit : Bool)
    (txo : Option TransactionOptions) (qo : Option QueryOptions) (tok : Json)
    (r : HttpResponse) (rest : List NetOutcome) (trace : List TraceEntry)
    (h401 : r.status_code ≠ 401) (htk : jsonTruthy tok = true) :
    one_shot_query u p q commit db ty txo qo ⟨some tok, .response r :: rest, trace⟩
      = (handle_response r,
         ⟨some tok, rest,
          trace ++ [.request ⟨"POST", "/v1/query",
                      some (oneShotPayload q commit db ty txo qo), none, tok⟩]⟩)
  ∧ dictGet (oneShotPayload q commit db ty txo qo) "query" = some (.str q)
  ∧ dictGet (oneShotPayload q commit db ty txo qo) "commit" = some (.bool commit)
  ∧ dictGet (oneShotPayload q commit db ty txo qo) "databaseName" = some (.str db)
  ∧ dictGet (oneShotPayload q commit db ty txo qo) "transactionType" = some (.str ty)
  ∧ (∀ o, txo = some o →
       dictGet (oneShotPayload q commit db ty txo qo) "transactionOptions"
         = some (.obj (transactionOptionsDict o)))
  ∧ (∀ o, qo = some o →
       dictGet (oneShotPayload q commit db ty txo qo) "queryOptions"
         = some (.obj (queryOptionsDict o)))
  ∧ (∀ (s : ServerDB) (dbn row : String),
       visibleRows
         (serverCloseTx
           (serverCommitTx
             (serverWriteTx (serverOpenTx s dbn).2 (serverOpenTx s dbn).1 row)
             (serverOpenTx s dbn).1)
           (serverOpenTx s dbn).1) dbn
       = visibleRows (serverOneShot s dbn row true) dbn) := by
  have hsend : sessionSend "POST" 2 (.response r :: rest) = (.ok r, rest) :=
    sessionSend_no_retry (isRetryStatus_post r.status_code) 2 rest
  refine ⟨?_, ?_, ?_, ?_, ?_, ?_, ?_, ?_⟩
  · rcases hh : handle_response r with e | d <;>
      simp [one_shot_query, make_request, get_token, htk, hsend, h401, hh]
  · simp [oneShotPayload, dictGet]
  · simp [oneShotPayload, dictGet]
  · simp [oneShotPayload, dictGet]
  · simp [oneShotPayload, dictGet]
  · intro o h
    subst h
    simp [oneShotPayload, dictGet]
  · intro o h
    subst h
    rcases txo with _ | o2 <;> simp [oneShotPayload, dictGet]
  · intro s dbn row
    simp [serverOpenTx, serverWriteTx, serverCommitTx, serverCloseTx, serverOneShot,
      visibleRows, updateDb]

/-- Witness for C8: a concrete committed one-shot write is one POST to
`/v1/query` returning the handled payload, and on a concrete server state
the explicit sequence and the one-shot leave the same rows visible. -/
theorem C8_one_shot_single_request_equiv_witness :
    one_shot_query "u" "p" "insert $x isa user;" true "db" "write" none none
        ⟨some (.str "tok"), [.response ⟨200, some [("answerType", Json.str "ok")]⟩], []⟩
      = (.ok [("answerType", Json.str "ok")],
         ⟨some (.str "tok"), [],
          [.request ⟨"POST", "/v1/query",
            some (oneShotPayload "insert $x isa user;" true "db" "write" none none),
            none, .str "tok"⟩]⟩)
  ∧ visibleRows
      (serverCloseTx
        (serverCommitTx
          (serverWriteTx (serverOpenTx ⟨[], [], 0⟩ "db").2 (serverOpenTx ⟨[], [], 0⟩ "db").1 "r1")
          (serverOpenTx ⟨[], [], 0⟩ "db").1)
        (serverOpenTx ⟨[], [], 0⟩ "db").1) "db"
    = visibleRows (serverOneShot ⟨[], [], 0⟩ "db" "r1" true) "db" := by
  have h := C8_one_shot_single_request_equiv "u" "p" "insert $x isa user;" "db" "write"
    true none none (.str "tok") ⟨200, some [("answerType", Json.str "ok")]⟩ [] []
    (by decide) (by decide)
  exact ⟨h.1, h.2.2.2.2.2.2.2 ⟨[], [], 0⟩ "db" "r1"⟩
